import Mathlib

/-!
Verification development for the channel alignment engine of the
FullSpectrumProcessor repository (`src/core/align.py`).

The engine, `align_images`, takes three greyscale images (R, G, B), detects
ORB features on each, matches the reference channel (index 0) against each
non-reference channel with a brute-force Hamming matcher with cross-checking,
gates on a minimum of 50 matches, estimates a partial affine transform, and
warps the non-reference channel to the reference's dimensions.  A single
exception class `AlignmentError` carrying only a message string signals
failure.

Embedding choices:
* An image is its shape (as numpy exposes it: `shape = (height, width)`)
  together with row-major pixel data.  `img.copy()` is the identity on the
  value level; object identity is treated separately by an explicit store
  model (`alignImagesRef`) used for the frame/aliasing claim.
* An ORB descriptor is a bit string, encoded as a natural number; the
  `cv2.NORM_HAMMING` distance is the population count of the bitwise xor.
* The external cv2 primitives that the source calls but does not define —
  `ORB.detectAndCompute`, `estimateAffinePartial2D`, `warpAffine` — are
  fields of a configuration record `Cfg`, since the repository pins none of
  their internals.  `detectAndCompute` may return `none` for the descriptor
  array (as cv2 does when no keypoints are found), which the source tests
  with `is not None` and `.size > 0`.
* `cv2.BFMatcher(cv2.NORM_HAMMING, crossCheck=True).match` is modelled
  concretely (`bfMatchCrossCheck`): each query descriptor is matched to its
  nearest train descriptor and the pair is kept only when the reverse lookup
  returns the same query index; ties are broken towards the lowest index.
-/

/-- A greyscale image: explicit width and height (numpy `shape[1]`,
`shape[0]`) plus row-major intensity data. -/
structure Image where
  width : Nat
  height : Nat
  data : List (List Nat)
deriving Repr, DecidableEq, Inhabited

/-- An ORB keypoint; only its position `kp.pt` is consumed by
`align_images`. -/
structure KeyPoint where
  pt : Int × Int
deriving Repr, DecidableEq, Inhabited

/-- An ORB descriptor: its 256 bits encoded as a natural number. -/
abbrev Desc := Nat

/-- A point passed to the transform estimator. -/
abbrev Pt := Int × Int

/-- A 2x3 partial affine matrix as returned by
`cv2.estimateAffinePartial2D`. -/
structure Affine where
  a : Int
  b : Int
  tx : Int
  c : Int
  d : Int
  ty : Int
deriving Repr, DecidableEq, Inhabited

/-- The exception class raised by `align_images`.  In the source it is a bare
`Exception` subclass: its only payload is the message string it is
constructed with. -/
structure AlignmentError where
  msg : String
deriving Repr, DecidableEq

/-- The cv2 primitives used by `align_images` that live outside the
repository: the ORB detector (`orb.detectAndCompute`), the robust affine
estimator (`cv2.estimateAffinePartial2D`, first argument `dst_pts`, second
`src_pts`), and the resampler (`cv2.warpAffine`, receiving the output width
and height from `dsize`). -/
structure Cfg where
  detectAndCompute : Image → List KeyPoint × Option (List Desc)
  estimateAffinePartial2D : List Pt → List Pt → Option Affine
  warpAffine : Image → Affine → Nat → Nat → Image

/-- Population count with structural fuel (the fuel `n` always suffices for
input `n`), so that it evaluates by `decide`/`rfl`. -/
def popCountAux : Nat → Nat → Nat
  | 0, _ => 0
  | fuel + 1, n => if n = 0 then 0 else n % 2 + popCountAux fuel (n / 2)

/-- Population count of a natural number's binary representation. -/
def popCount (n : Nat) : Nat := popCountAux n n

/-- `cv2.NORM_HAMMING` on ORB descriptors: the number of bit positions where
the two descriptors differ. -/
def distance (d1 d2 : Desc) : Nat := popCount (d1 ^^^ d2)

/-- Index of the nearest train descriptor to `d` (ties towards the lowest
index), `none` on an empty train set. -/
def bestIdx (d : Desc) : List Desc → Option Nat
  | [] => none
  | x :: xs =>
    match bestIdx d xs with
    | none => some 0
    | some t => if distance d (xs.getD t 0) < distance d x then some (t + 1) else some 0

/-- `cv2.BFMatcher(cv2.NORM_HAMMING, crossCheck=True).match query train`:
the list of `(queryIdx, trainIdx)` pairs such that the train index is the
query descriptor's nearest neighbour and, symmetrically, the query index is
the train descriptor's nearest neighbour.  No distance threshold is
applied. -/
def bfMatchCrossCheck (query train : List Desc) : List (Nat × Nat) :=
  (List.range query.length).filterMap fun q =>
    match bestIdx (query.getD q 0) train with
    | none => none
    | some t => if bestIdx (train.getD t 0) query = some q then some (q, t) else none

/-- `MIN_MATCHES` from the source: minimum match count for reliable alignment. -/
def MIN_MATCHES : Nat := 50

/-- The source's gate on one channel's descriptor array:
`des is not None and des.size > 0`. -/
def descOK : Option (List Desc) → Bool
  | none => false
  | some l => decide (0 < l.length)

/-- The message of the insufficient-matches error:
`f"Insufficient matches (\x7blen\x7d/\x7bMIN_MATCHES\x7d)"`. -/
def insufficientMsg (n : Nat) : String :=
  "Insufficient matches (" ++ toString n ++ "/" ++ toString MIN_MATCHES ++ ")"

/-- The message of the estimation-failure error:
`f"Failed to estimate transformation for channel \x7bi\x7d"`. -/
def estFailMsg (i : Nat) : String :=
  "Failed to estimate transformation for channel " ++ toString i

/-- `src_pts`: positions of the reference keypoints selected by the match
pairs' query indices. -/
def srcPts (kp0 : List KeyPoint) (matchList : List (Nat × Nat)) : List Pt :=
  matchList.map fun m => (kp0.getD m.1 default).pt

/-- `dst_pts`: positions of the target-channel keypoints selected by the
match pairs' train indices. -/
def dstPts (kpi : List KeyPoint) (matchList : List (Nat × Nat)) : List Pt :=
  matchList.map fun m => (kpi.getD m.2 default).pt

/-- The body of the source's `for i in range(1, 3)` loop: produce the output
image for non-reference channel `i` (or an error).  `ref` is
`original_images[0]` (used only for its dimensions), `img` is
`original_images[i]`; on the skip branch the channel keeps its initial value
`aligned[i] = original_images[i].copy()`. -/
def alignChannel (cfg : Cfg) (ref img : Image) (kp0 : List KeyPoint)
    (des0 : Option (List Desc)) (kpi : List KeyPoint)
    (desi : Option (List Desc)) (i : Nat) : Except AlignmentError Image :=
  if descOK des0 && descOK desi then
    let matchList := bfMatchCrossCheck (des0.getD []) (desi.getD [])
    if matchList.length < MIN_MATCHES then
      Except.error (AlignmentError.mk (insufficientMsg matchList.length))
    else
      match cfg.estimateAffinePartial2D (dstPts kpi matchList) (srcPts kp0 matchList) with
      | none => Except.error (AlignmentError.mk (estFailMsg i))
      | some M => Except.ok (cfg.warpAffine img M ref.width ref.height)
  else
    Except.ok img

/-- `align_images`: detect features on all three channels, then align
channels 1 (G) and 2 (B) to channel 0 (R); the reference slot of the output
keeps the copy of the input reference. -/
def alignImages (cfg : Cfg) (img0 img1 img2 : Image) :
    Except AlignmentError (Image × Image × Image) :=
  match cfg.detectAndCompute img0, cfg.detectAndCompute img1, cfg.detectAndCompute img2 with
  | (kp0, des0), (kp1, des1), (kp2, des2) =>
    match alignChannel cfg img0 img1 kp0 des0 kp1 des1 1 with
    | Except.error e => Except.error e
    | Except.ok a1 =>
      match alignChannel cfg img0 img2 kp0 des0 kp2 des2 2 with
      | Except.error e => Except.error e
      | Except.ok a2 => Except.ok (img0, a1, a2)

/-- `t` is the position of the best (nearest, ties broken towards the lowest
index) match for descriptor `d` inside the descriptor list `ds`. -/
def isBestMatch (d : Desc) (ds : List Desc) (t : Nat) : Prop :=
  t < ds.length ∧
  (∀ j, j < ds.length → distance d (ds.getD t 0) ≤ distance d (ds.getD j 0)) ∧
  (∀ j, j < t → distance d (ds.getD t 0) < distance d (ds.getD j 0))

/-- A reference to a numpy array: its index in an explicit store.  Used to
model object identity (aliasing/freshness), which the value-level model
erases. -/
abbrev ArrayId := Nat

/-- The heap of numpy arrays live during one `align_images` call. -/
abbrev Store := List Image

/-- Dereference an array. -/
def readArr (s : Store) (r : ArrayId) : Image := s.getD r default

/-- Allocate a fresh array holding `img`: its id is the previous store
length, so it is distinct from every existing id. -/
def alloc (s : Store) (img : Image) : Store × ArrayId := (s ++ [img], s.length)

/-- Store-passing version of `alignChannel`.  `orig` is the id of
`original_images[i]`, `copied` the id of the copy `aligned[i]` made at entry;
`cv2.warpAffine` (called without a `dst` argument) allocates a fresh output
array. -/
def alignChannelRef (cfg : Cfg) (s : Store) (r0 orig copied : ArrayId)
    (kp0 : List KeyPoint) (des0 : Option (List Desc)) (kpi : List KeyPoint)
    (desi : Option (List Desc)) (i : Nat) :
    Except AlignmentError ArrayId × Store :=
  if descOK des0 && descOK desi then
    let matchList := bfMatchCrossCheck (des0.getD []) (desi.getD [])
    if matchList.length < MIN_MATCHES then
      (Except.error (AlignmentError.mk (insufficientMsg matchList.length)), s)
    else
      match cfg.estimateAffinePartial2D (dstPts kpi matchList) (srcPts kp0 matchList) with
      | none => (Except.error (AlignmentError.mk (estFailMsg i)), s)
      | some M =>
        let p := alloc s (cfg.warpAffine (readArr s orig) M
          (readArr s r0).width (readArr s r0).height)
        (Except.ok p.2, p.1)
  else
    (Except.ok copied, s)

/-- Store-passing version of `align_images`: `img.copy()` allocates a fresh
array for each input (the `aligned` list), feature detection only reads the
originals, and each aligned channel is either its entry copy or a fresh
`warpAffine` output. -/
def alignImagesRef (cfg : Cfg) (r0 r1 r2 : ArrayId) (s : Store) :
    Except AlignmentError (ArrayId × ArrayId × ArrayId) × Store :=
  match alloc s (readArr s r0) with
  | (sa, c0) =>
    match alloc sa (readArr sa r1) with
    | (sb, c1) =>
      match alloc sb (readArr sb r2) with
      | (sc, c2) =>
        match cfg.detectAndCompute (readArr sc r0), cfg.detectAndCompute (readArr sc r1),
              cfg.detectAndCompute (readArr sc r2) with
        | (kp0, des0), (kp1, des1), (kp2, des2) =>
          match alignChannelRef cfg sc r0 r1 c1 kp0 des0 kp1 des1 1 with
          | (Except.error e, s1) => (Except.error e, s1)
          | (Except.ok a1, s1) =>
            match alignChannelRef cfg s1 r0 r2 c2 kp0 des0 kp2 des2 2 with
            | (Except.error e, s2) => (Except.error e, s2)
            | (Except.ok a2, s2) => (Except.ok (c0, a1, a2), s2)

/-- The store `s'` extends `s`: every existing array survives unchanged and
only fresh cells were appended. -/
def extStore (s s' : Store) : Prop := ∃ t, s' = s ++ t

/-- 50 distinct keypoints for concrete runs. -/
def kps50 : List KeyPoint := (List.range 50).map fun n => KeyPoint.mk ((n : Int), 0)

/-- 50 pairwise distinct descriptors; each is its own unique Hamming-nearest
neighbour, so cross-checked matching of `descs50` against itself yields
exactly the 50 diagonal pairs. -/
def descs50 : List Desc := List.range 50

/-- A 1x1 reference image. -/
def imgR : Image := Image.mk 1 1 [[0]]

/-- A 2x2 green-channel image (dimensions differ from the reference). -/
def imgG : Image := Image.mk 2 2 [[1, 2], [3, 4]]

/-- A 1x1 blue-channel image. -/
def imgB : Image := Image.mk 1 1 [[5]]

/-- An identity-shaped affine matrix. -/
def affId : Affine := Affine.mk 1 0 0 0 1 0

/-- A resampler instance honouring `cv2.warpAffine`'s dimension contract:
the output has exactly the requested width and height. -/
def warpConst : Image → Affine → Nat → Nat → Image :=
  fun _ _ w h => Image.mk w h [[7]]

/-- A detector instance that finds no features on any image (cv2 then
returns `None` descriptors). -/
def cfgSkipAll : Cfg := Cfg.mk (fun _ => ([], none)) (fun _ _ => none) warpConst

/-- A detector instance that finds nothing on `imgG` but 50 mutually
matching features on every other image; estimation always succeeds. -/
def cfgPartial : Cfg :=
  Cfg.mk (fun img => if img = imgG then ([], none) else (kps50, some descs50))
    (fun _ _ => some affId) warpConst

/-- A detector instance yielding a single descriptor per image, so matching
succeeds with exactly one correspondence (below the floor of 50). -/
def cfgOneFeature : Cfg :=
  Cfg.mk (fun _ => ([KeyPoint.mk (0, 0)], some [0])) (fun _ _ => some affId) warpConst

/-- A detector instance yielding 50 correspondences whose robust fit always
fails (`estimateAffinePartial2D` returns `None`). -/
def cfgEstNone : Cfg :=
  Cfg.mk (fun _ => (kps50, some descs50)) (fun _ _ => none) warpConst

theorem isBestMatch_cons_zero (d x : Desc) (xs : List Desc) :
    isBestMatch d (x :: xs) 0 ↔
      ∀ j, j < xs.length → distance d x ≤ distance d (xs.getD j 0) := by
  constructor
  · rintro ⟨-, h2, -⟩ j hj
    have := h2 (j + 1) (by simpa using Nat.succ_lt_succ hj)
    simpa using this
  · intro h
    refine ⟨Nat.succ_pos _, ?_, by omega⟩
    intro j hj
    cases j with
    | zero => simp
    | succ j' => simpa using h j' (by simpa using Nat.lt_of_succ_lt_succ hj)

theorem isBestMatch_cons_succ (d x : Desc) (xs : List Desc) (t : Nat) :
    isBestMatch d (x :: xs) (t + 1) ↔
      isBestMatch d xs t ∧ distance d (xs.getD t 0) < distance d x := by
  constructor
  · rintro ⟨h1, h2, h3⟩
    have hstrict : distance d (xs.getD t 0) < distance d x := by
      simpa using h3 0 (Nat.succ_pos _)
    refine ⟨⟨Nat.lt_of_succ_lt_succ (by simpa using h1), ?_, ?_⟩, hstrict⟩
    · intro j hj
      have := h2 (j + 1) (by simpa using Nat.succ_lt_succ hj)
      simpa using this
    · intro j hj
      have := h3 (j + 1) (Nat.succ_lt_succ hj)
      simpa using this
  · rintro ⟨⟨h1, h2, h3⟩, hstrict⟩
    refine ⟨by simpa using Nat.succ_lt_succ h1, ?_, ?_⟩
    · intro j hj
      cases j with
      | zero => simpa using Nat.le_of_lt hstrict
      | succ j' => simpa using h2 j' (by simpa using Nat.lt_of_succ_lt_succ hj)
    · intro j hj
      cases j with
      | zero => simpa using hstrict
      | succ j' => simpa using h3 j' (Nat.lt_of_succ_lt_succ hj)

theorem bestIdx_eq_some (d : Desc) (ds : List Desc) (t : Nat) :
    bestIdx d ds = some t ↔ isBestMatch d ds t := by
  induction ds generalizing t with
  | nil =>
    simp [bestIdx, isBestMatch]
  | cons x xs ih =>
    cases hbx : bestIdx d xs with
    | none =>
      have hxs : xs = [] := by
        cases xs with
        | nil => rfl
        | cons y ys =>
          exfalso
          cases hys : bestIdx d ys with
          | none => simp only [bestIdx, hys] at hbx; exact Option.noConfusion hbx
          | some s =>
            simp only [bestIdx, hys] at hbx
            split at hbx <;> exact Option.noConfusion hbx
      subst hxs
      cases t with
      | zero =>
        simp [bestIdx, isBestMatch_cons_zero]
      | succ t' =>
        simp [bestIdx, isBestMatch_cons_succ, isBestMatch]
    | some s =>
      have hs : isBestMatch d xs s := (ih s).mp hbx
      by_cases hlt : distance d (xs.getD s 0) < distance d x
      · cases t with
        | zero =>
          simp only [bestIdx, hbx, if_pos hlt, Option.some.injEq]
          constructor
          · intro h
            exact absurd h (by omega)
          · intro h
            exfalso
            have := (isBestMatch_cons_zero d x xs).mp h s hs.1
            omega
        | succ t' =>
          simp only [bestIdx, hbx, if_pos hlt, Option.some.injEq,
            Nat.succ.injEq, isBestMatch_cons_succ]
          constructor
          · intro h
            subst h
            exact ⟨hs, hlt⟩
          · rintro ⟨hbm, -⟩
            have h2 := (ih t').mpr hbm
            rw [hbx] at h2
            simpa using h2
      · cases t with
        | zero =>
          simp only [bestIdx, hbx, if_neg hlt, Option.some.injEq,
            isBestMatch_cons_zero]
          constructor
          · intro _ j hj
            have h1 : distance d x ≤ distance d (xs.getD s 0) := Nat.le_of_not_lt hlt
            exact Nat.le_trans h1 (hs.2.1 j hj)
          · intro _
            trivial
        | succ t' =>
          simp only [bestIdx, hbx, if_neg hlt, Option.some.injEq,
            isBestMatch_cons_succ]
          constructor
          · intro h
            exact absurd h (by omega)
          · rintro ⟨hbm, hstrict⟩
            exfalso
            have h2 := (ih t').mpr hbm
            rw [hbx] at h2
            have ht' : t' = s := by simpa using h2.symm
            subst ht'
            exact hlt hstrict

theorem alignChannelRef_spec (cfg : Cfg) (s : Store) (r0 orig copied : ArrayId)
    (kp0 : List KeyPoint) (des0 : Option (List Desc)) (kpi : List KeyPoint)
    (desi : Option (List Desc)) (i : Nat) :
    ((alignChannelRef cfg s r0 orig copied kp0 des0 kpi desi i).2 = s ∨
      ∃ img, (alignChannelRef cfg s r0 orig copied kp0 des0 kpi desi i).2 = s ++ [img]) ∧
    ∀ a, (alignChannelRef cfg s r0 orig copied kp0 des0 kpi desi i).1 = Except.ok a →
      a = copied ∨ a = s.length := by
  simp only [alignChannelRef]
  split
  · split
    · refine ⟨Or.inl rfl, ?_⟩
      intro a ha
      exact absurd ha (by simp)
    · split
      · refine ⟨Or.inl rfl, ?_⟩
        intro a ha
        exact absurd ha (by simp)
      · refine ⟨Or.inr ⟨_, rfl⟩, ?_⟩
        intro a ha
        exact Or.inr (by simpa [alloc] using ha.symm)
  · refine ⟨Or.inl rfl, ?_⟩
    intro a ha
    exact Or.inl (by simpa using ha.symm)

theorem insufficientMsg_ne_estFailMsg (n j : Nat) : insufficientMsg n ≠ estFailMsg j := by
  intro hcontra
  have h1 : (insufficientMsg n).data.head? = some 'I' := rfl
  have h2 : (estFailMsg j).data.head? = some 'F' := rfl
  rw [hcontra, h2] at h1
  simp at h1

theorem extStore_trans (a b c : Store) (h1 : extStore a b) (h2 : extStore b c) :
    extStore a c := by
  obtain ⟨t1, rfl⟩ := h1
  obtain ⟨t2, rfl⟩ := h2
  exact ⟨t1 ++ t2, by simp⟩

theorem extStore_append (s : Store) (t : List Image) : extStore s (s ++ t) := ⟨t, rfl⟩

theorem extStore_getD (s s' : Store) (j : Nat) (h : extStore s s') (hj : j < s.length) :
    s'.getD j default = s.getD j default := by
  obtain ⟨t, rfl⟩ := h
  exact List.getD_append s t default j hj

theorem extStore_length (s s' : Store) (h : extStore s s') : s.length ≤ s'.length := by
  obtain ⟨t, rfl⟩ := h
  simp

theorem alignChannelRef_run (cfg : Cfg) (s : Store) (r0 orig copied : ArrayId)
    (kp0 : List KeyPoint) (des0 : Option (List Desc)) (kpi : List KeyPoint)
    (desi : Option (List Desc)) (i : Nat) (res : Except AlignmentError ArrayId) (s' : Store)
    (h : alignChannelRef cfg s r0 orig copied kp0 des0 kpi desi i = (res, s')) :
    extStore s s' ∧ ∀ a, res = Except.ok a → a = copied ∨ a = s.length := by
  have hs := alignChannelRef_spec cfg s r0 orig copied kp0 des0 kpi desi i
  rw [h] at hs
  dsimp only at hs
  rcases hs with ⟨hst | ⟨img, hst⟩, hok⟩
  · subst hst
    exact ⟨⟨[], by simp⟩, hok⟩
  · subst hst
    exact ⟨extStore_append s [img], hok⟩

theorem alignImagesRef_run (cfg : Cfg) (r0 r1 r2 : ArrayId) (s : Store)
    (res : Except AlignmentError (ArrayId × ArrayId × ArrayId)) (s' : Store)
    (h : alignImagesRef cfg r0 r1 r2 s = (res, s')) :
    extStore s s' ∧
    ∀ o0 o1 o2, res = Except.ok (o0, o1, o2) →
      s.length ≤ o0 ∧ s.length ≤ o1 ∧ s.length ≤ o2 := by
  rw [alignImagesRef] at h
  simp only [alloc] at h
  split at h
  · rename_i e s1 heq1
    injection h with hres hs'
    subst hs'
    have hrun := alignChannelRef_run _ _ _ _ _ _ _ _ _ _ _ _ heq1
    refine ⟨extStore_trans _ _ _ (extStore_trans _ _ _ (extStore_trans _ _ _
      (extStore_append _ _) (extStore_append _ _)) (extStore_append _ _)) hrun.1, ?_⟩
    intro o0 o1 o2 hok
    rw [← hres] at hok
    simp at hok
  · rename_i a1 s1 heq1
    split at h
    · rename_i e s2 heq2
      injection h with hres hs'
      subst hs'
      have hrun1 := alignChannelRef_run _ _ _ _ _ _ _ _ _ _ _ _ heq1
      have hrun2 := alignChannelRef_run _ _ _ _ _ _ _ _ _ _ _ _ heq2
      refine ⟨extStore_trans _ _ _ (extStore_trans _ _ _ (extStore_trans _ _ _ (extStore_trans _ _ _
        (extStore_append _ _) (extStore_append _ _)) (extStore_append _ _)) hrun1.1) hrun2.1, ?_⟩
      intro o0 o1 o2 hok
      rw [← hres] at hok
      simp at hok
    · rename_i a2 s2 heq2
      injection h with hres hs'
      subst hs'
      have hrun1 := alignChannelRef_run _ _ _ _ _ _ _ _ _ _ _ _ heq1
      have hrun2 := alignChannelRef_run _ _ _ _ _ _ _ _ _ _ _ _ heq2
      refine ⟨extStore_trans _ _ _ (extStore_trans _ _ _ (extStore_trans _ _ _ (extStore_trans _ _ _
        (extStore_append _ _) (extStore_append _ _)) (extStore_append _ _)) hrun1.1) hrun2.1, ?_⟩
      intro o0 o1 o2 hok
      rw [← hres] at hok
      simp only [Except.ok.injEq, Prod.mk.injEq] at hok
      obtain ⟨h0, h1, h2⟩ := hok
      subst h0 h1 h2
      have ha1 := hrun1.2 a1 rfl
      have ha2 := hrun2.2 a2 rfl
      have hlen1 : ((s ++ [readArr s r0]).length) = s.length + 1 := by simp
      have hlenSC : (((s ++ [readArr s r0]) ++ [readArr (s ++ [readArr s r0]) r1]) ++
          [readArr ((s ++ [readArr s r0]) ++ [readArr (s ++ [readArr s r0]) r1]) r2]).length
          = s.length + 3 := by simp
      have hs1len := extStore_length _ _ hrun1.1
      rcases ha1 with ha1 | ha1 <;> rcases ha2 with ha2 | ha2 <;>
        (subst ha1; subst ha2) <;> simp_all <;> omega

theorem alignChannel_skip (cfg : Cfg) (ref img : Image) (kp0 : List KeyPoint)
    (des0 : Option (List Desc)) (kpi : List KeyPoint) (desi : Option (List Desc))
    (i : Nat) (h : descOK des0 = false ∨ descOK desi = false) :
    alignChannel cfg ref img kp0 des0 kpi desi i = Except.ok img := by
  have hgate : (descOK des0 && descOK desi) = false := by
    rcases h with h | h <;> simp [h]
  simp [alignChannel, hgate]

theorem alignChannel_insufficient (cfg : Cfg) (ref img : Image) (kp0 : List KeyPoint)
    (des0 : Option (List Desc)) (kpi : List KeyPoint) (desi : Option (List Desc))
    (i : Nat) (h0 : descOK des0 = true) (hi : descOK desi = true)
    (hlt : (bfMatchCrossCheck (des0.getD []) (desi.getD [])).length < MIN_MATCHES) :
    alignChannel cfg ref img kp0 des0 kpi desi i =
      Except.error (AlignmentError.mk
        (insufficientMsg (bfMatchCrossCheck (des0.getD []) (desi.getD [])).length)) := by
  simp [alignChannel, h0, hi, hlt]

theorem alignChannel_estFail (cfg : Cfg) (ref img : Image) (kp0 : List KeyPoint)
    (des0 : Option (List Desc)) (kpi : List KeyPoint) (desi : Option (List Desc))
    (i : Nat) (h0 : descOK des0 = true) (hi : descOK desi = true)
    (hge : ¬ (bfMatchCrossCheck (des0.getD []) (desi.getD [])).length < MIN_MATCHES)
    (hest : cfg.estimateAffinePartial2D
        (dstPts kpi (bfMatchCrossCheck (des0.getD []) (desi.getD [])))
        (srcPts kp0 (bfMatchCrossCheck (des0.getD []) (desi.getD []))) = none) :
    alignChannel cfg ref img kp0 des0 kpi desi i =
      Except.error (AlignmentError.mk (estFailMsg i)) := by
  simp [alignChannel, h0, hi, hge, hest]

theorem alignChannel_ok_inv (cfg : Cfg) (ref img : Image) (kp0 : List KeyPoint)
    (des0 : Option (List Desc)) (kpi : List KeyPoint) (desi : Option (List Desc))
    (i : Nat) (a : Image)
    (h : alignChannel cfg ref img kp0 des0 kpi desi i = Except.ok a) :
    a = img ∨ ∃ M, a = cfg.warpAffine img M ref.width ref.height := by
  rw [alignChannel] at h
  dsimp only at h
  split at h
  · split at h
    · exact absurd h (by simp)
    · split at h
      · exact absurd h (by simp)
      · right
        exact ⟨_, by simpa using h.symm⟩
  · left
    simpa using h.symm

theorem alignChannel_error_inv (cfg : Cfg) (ref img : Image) (kp0 : List KeyPoint)
    (des0 : Option (List Desc)) (kpi : List KeyPoint) (desi : Option (List Desc))
    (i : Nat) (err : AlignmentError)
    (h : alignChannel cfg ref img kp0 des0 kpi desi i = Except.error err) :
    (∃ n, err = AlignmentError.mk (insufficientMsg n)) ∨
      err = AlignmentError.mk (estFailMsg i) := by
  rw [alignChannel] at h
  dsimp only at h
  split at h
  · split at h
    · left
      exact ⟨_, by simpa using h.symm⟩
    · split at h
      · right
        simpa using h.symm
      · exact absurd h (by simp)
  · exact absurd h (by simp)

theorem alignImages_ok_inv (cfg : Cfg) (img0 img1 img2 o0 o1 o2 : Image)
    (h : alignImages cfg img0 img1 img2 = Except.ok (o0, o1, o2)) :
    o0 = img0 ∧
    (o1 = img1 ∨ ∃ M, o1 = cfg.warpAffine img1 M img0.width img0.height) ∧
    (o2 = img2 ∨ ∃ M, o2 = cfg.warpAffine img2 M img0.width img0.height) := by
  rw [alignImages] at h
  split at h
  split at h
  · exact absurd h (by simp)
  · rename_i a1 heq1
    split at h
    · exact absurd h (by simp)
    · rename_i a2 heq2
      simp only [Except.ok.injEq, Prod.mk.injEq] at h
      obtain ⟨h0, h1, h2⟩ := h
      subst h0 h1 h2
      exact ⟨rfl, alignChannel_ok_inv _ _ _ _ _ _ _ _ _ heq1,
        alignChannel_ok_inv _ _ _ _ _ _ _ _ _ heq2⟩

/-- C1 (corrected by `C1_counterexample`): on a successful return of
`align_images`, each non-reference channel is either its resampled,
transform-corrected version or an unmodified copy of its original; the
zero-descriptor skip branch makes the "copy" outcome reachable even while
the other channel is genuinely aligned, so the original claim's dichotomy
(aligned or whole-call failure) does not hold. -/
theorem C1_thm (cfg : Cfg) (img0 img1 img2 o0 o1 o2 : Image)
    (h : alignImages cfg img0 img1 img2 = Except.ok (o0, o1, o2)) :
    (o1 = img1 ∨ ∃ M, o1 = cfg.warpAffine img1 M img0.width img0.height) ∧
    (o2 = img2 ∨ ∃ M, o2 = cfg.warpAffine img2 M img0.width img0.height) :=
  ⟨(alignImages_ok_inv _ _ _ _ _ _ _ h).2.1, (alignImages_ok_inv _ _ _ _ _ _ _ h).2.2⟩

/-- C1: counterexample to the claim as stated — a run of `align_images`
that returns successfully with channel 1 (G) silently left as a copy of its
original (its descriptor array was `None`) while channel 2 (B) was replaced
by its warped version (which differs from the original). -/
theorem C1_counterexample :
    alignImages cfgPartial imgR imgG imgB =
      Except.ok (imgR, imgG, Image.mk 1 1 [[7]]) ∧
    Image.mk 1 1 [[7]] ≠ imgB := by
  exact ⟨rfl, by decide⟩

/-- C1: witness instantiating `C1_thm` on a concrete run. -/
theorem C1_witness :
    (alignImages cfgSkipAll imgR imgG imgB = Except.ok (imgR, imgG, imgB)) ∧
    ((imgG = imgG ∨ ∃ M, imgG = cfgSkipAll.warpAffine imgG M imgR.width imgR.height) ∧
     (imgB = imgB ∨ ∃ M, imgB = cfgSkipAll.warpAffine imgB M imgR.width imgR.height)) :=
  ⟨rfl, C1_thm cfgSkipAll imgR imgG imgB imgR imgG imgB rfl⟩

/-- C2 (corrected by `C2_counterexample`): given `cv2.warpAffine`'s
dimension contract, every successfully returned channel either has exactly
the reference's width and height or was passed through unchanged by the
zero-descriptor skip (and then keeps its own input dimensions, which may
differ from the reference's). -/
theorem C2_thm (cfg : Cfg) (img0 img1 img2 o0 o1 o2 : Image)
    (hwarp : ∀ img M w h, (cfg.warpAffine img M w h).width = w ∧
      (cfg.warpAffine img M w h).height = h)
    (h : alignImages cfg img0 img1 img2 = Except.ok (o0, o1, o2)) :
    (o0.width = img0.width ∧ o0.height = img0.height) ∧
    ((o1.width = img0.width ∧ o1.height = img0.height) ∨ o1 = img1) ∧
    ((o2.width = img0.width ∧ o2.height = img0.height) ∨ o2 = img2) := by
  obtain ⟨h0, h1, h2⟩ := alignImages_ok_inv _ _ _ _ _ _ _ h
  subst h0
  refine ⟨⟨rfl, rfl⟩, ?_, ?_⟩
  · rcases h1 with h1 | ⟨M, h1⟩
    · exact Or.inr h1
    · subst h1
      exact Or.inl (hwarp _ _ _ _)
  · rcases h2 with h2 | ⟨M, h2⟩
    · exact Or.inr h2
    · subst h2
      exact Or.inl (hwarp _ _ _ _)

/-- C2: counterexample to the claim as stated — a successful return of
`align_images` in which the G output keeps its own 2x2 dimensions even
though the reference is 1x1, because its descriptors were `None` and
alignment was skipped. -/
theorem C2_counterexample :
    alignImages cfgSkipAll imgR imgG imgB = Except.ok (imgR, imgG, imgB) ∧
    imgG.width ≠ imgR.width ∧ imgG.height ≠ imgR.height :=
  ⟨rfl, by decide, by decide⟩

/-- C2: witness instantiating `C2_thm` on a concrete run. -/
theorem C2_witness :
    (alignImages cfgSkipAll imgR imgG imgB = Except.ok (imgR, imgG, imgB)) ∧
    ((imgR.width = imgR.width ∧ imgR.height = imgR.height) ∧
     ((imgG.width = imgR.width ∧ imgG.height = imgR.height) ∨ imgG = imgG) ∧
     ((imgB.width = imgR.width ∧ imgB.height = imgR.height) ∨ imgB = imgB)) :=
  ⟨rfl, C2_thm cfgSkipAll imgR imgG imgB imgR imgG imgB
    (fun _ _ _ _ => ⟨rfl, rfl⟩) rfl⟩

/-- C3 (confirmed): when both descriptor arrays pass the gate and the
cross-checked correspondence set has fewer than `MIN_MATCHES = 50`
elements, the loop body raises `AlignmentError` with the message carrying
the observed count and the floor of 50, and the result is the same for
every transform estimator — no fit is attempted. -/
theorem C3_thm (cfg : Cfg) (ref img : Image) (kp0 : List KeyPoint)
    (des0 : Option (List Desc)) (kpi : List KeyPoint) (desi : Option (List Desc))
    (i : Nat) (h0 : descOK des0 = true) (hi : descOK desi = true)
    (hlt : (bfMatchCrossCheck (des0.getD []) (desi.getD [])).length < MIN_MATCHES) :
    alignChannel cfg ref img kp0 des0 kpi desi i =
      Except.error (AlignmentError.mk (insufficientMsg
        (bfMatchCrossCheck (des0.getD []) (desi.getD [])).length)) ∧
    ∀ est, alignChannel (Cfg.mk cfg.detectAndCompute est cfg.warpAffine)
        ref img kp0 des0 kpi desi i =
      alignChannel cfg ref img kp0 des0 kpi desi i := by
  refine ⟨alignChannel_insufficient _ _ _ _ _ _ _ _ h0 hi hlt, ?_⟩
  intro est
  rw [alignChannel_insufficient (Cfg.mk cfg.detectAndCompute est cfg.warpAffine)
      ref img kp0 des0 kpi desi i h0 hi hlt,
    alignChannel_insufficient cfg ref img kp0 des0 kpi desi i h0 hi hlt]

/-- C3: witness instantiating `C3_thm` on a run with a single
correspondence (1 < 50). -/
theorem C3_witness :
    descOK (some [0]) = true ∧
    (bfMatchCrossCheck [0] [0]).length < MIN_MATCHES ∧
    alignChannel cfgOneFeature imgR imgG [KeyPoint.mk (0, 0)] (some [0])
      [KeyPoint.mk (0, 0)] (some [0]) 1 =
      Except.error (AlignmentError.mk (insufficientMsg 1)) :=
  ⟨rfl, by decide,
    (C3_thm cfgOneFeature imgR imgG [KeyPoint.mk (0, 0)] (some [0])
      [KeyPoint.mk (0, 0)] (some [0]) 1 rfl rfl (by decide)).1⟩

/-- C4 (confirmed): on every successful return of `align_images`, the first
output image equals the first input image — the reference channel is never
transformed. -/
theorem C4_thm (cfg : Cfg) (img0 img1 img2 o0 o1 o2 : Image)
    (h : alignImages cfg img0 img1 img2 = Except.ok (o0, o1, o2)) : o0 = img0 :=
  (alignImages_ok_inv _ _ _ _ _ _ _ h).1

/-- C4: witness instantiating `C4_thm` on a concrete run. -/
theorem C4_witness :
    (alignImages cfgSkipAll imgR imgG imgB = Except.ok (imgR, imgG, imgB)) ∧
    imgR = imgR :=
  ⟨rfl, C4_thm cfgSkipAll imgR imgG imgB imgR imgG imgB rfl⟩

/-- C5 (confirmed): when the reference channel or the target channel has a
missing/empty descriptor array, the loop body leaves that channel as an
unmodified copy of its original and raises no error for it. -/
theorem C5_thm (cfg : Cfg) (ref img : Image) (kp0 : List KeyPoint)
    (des0 : Option (List Desc)) (kpi : List KeyPoint) (desi : Option (List Desc))
    (i : Nat) (h : descOK des0 = false ∨ descOK desi = false) :
    alignChannel cfg ref img kp0 des0 kpi desi i = Except.ok img :=
  alignChannel_skip _ _ _ _ _ _ _ _ h

/-- C5: witness instantiating `C5_thm` on a run with `None` descriptors. -/
theorem C5_witness :
    descOK (none : Option (List Desc)) = false ∧
    alignChannel cfgSkipAll imgR imgG [] none [] none 1 = Except.ok imgG :=
  ⟨rfl, C5_thm cfgSkipAll imgR imgG [] none [] none 1 (Or.inl rfl)⟩

/-- C6 (confirmed): with at least `MIN_MATCHES = 50` cross-checked
correspondences and an estimator that returns no transform, the loop body
fails with the "Failed to estimate transformation for channel i" error
naming the affected channel. -/
theorem C6_thm (cfg : Cfg) (ref img : Image) (kp0 : List KeyPoint)
    (des0 : Option (List Desc)) (kpi : List KeyPoint) (desi : Option (List Desc))
    (i : Nat) (h0 : descOK des0 = true) (hi : descOK desi = true)
    (hge : MIN_MATCHES ≤ (bfMatchCrossCheck (des0.getD []) (desi.getD [])).length)
    (hest : cfg.estimateAffinePartial2D
        (dstPts kpi (bfMatchCrossCheck (des0.getD []) (desi.getD [])))
        (srcPts kp0 (bfMatchCrossCheck (des0.getD []) (desi.getD []))) = none) :
    alignChannel cfg ref img kp0 des0 kpi desi i =
      Except.error (AlignmentError.mk (estFailMsg i)) :=
  alignChannel_estFail _ _ _ _ _ _ _ _ h0 hi (Nat.not_lt.mpr hge) hest

/-- C6: witness instantiating `C6_thm` on a run with 50 correspondences and
an always-failing estimator. -/
theorem C6_witness :
    MIN_MATCHES ≤ (bfMatchCrossCheck descs50 descs50).length ∧
    alignChannel cfgEstNone imgR imgB kps50 (some descs50) kps50 (some descs50) 2 =
      Except.error (AlignmentError.mk (estFailMsg 2)) :=
  ⟨by decide,
    C6_thm cfgEstNone imgR imgB kps50 (some descs50) kps50 (some descs50) 2
      rfl rfl (by decide) rfl⟩

/-- C7 (corrected by `C7_counterexample`): every error raised by the loop
body is the single exception type `AlignmentError`, whose only payload is
its message string; the message is drawn from exactly two disjoint families
(the insufficient-matches one, which embeds the observed and required
counts, and the estimation-failure one, which embeds the channel index), so
the two kinds are distinguishable — but only through the message text. -/
theorem C7_thm (cfg : Cfg) (ref img : Image) (kp0 : List KeyPoint)
    (des0 : Option (List Desc)) (kpi : List KeyPoint) (desi : Option (List Desc))
    (i : Nat) (err : AlignmentError)
    (h : alignChannel cfg ref img kp0 des0 kpi desi i = Except.error err) :
    err = AlignmentError.mk err.msg ∧
    ((∃ n, err.msg = insufficientMsg n) ∨ err.msg = estFailMsg i) ∧
    (∀ n j, insufficientMsg n ≠ estFailMsg j) := by
  refine ⟨rfl, ?_, insufficientMsg_ne_estFailMsg⟩
  rcases alignChannel_error_inv _ _ _ _ _ _ _ _ _ h with ⟨n, rfl⟩ | rfl
  · exact Or.inl ⟨n, rfl⟩
  · exact Or.inr rfl

/-- C7: counterexample to the claim as stated — both failure kinds reach the
caller as the same exception type `AlignmentError`, built with nothing but a
formatted message string, so no typed discrimination is available. -/
theorem C7_counterexample :
    alignImages cfgOneFeature imgR imgG imgB =
      Except.error (AlignmentError.mk "Insufficient matches (1/50)") ∧
    alignImages cfgEstNone imgR imgG imgB =
      Except.error (AlignmentError.mk "Failed to estimate transformation for channel 1") :=
  ⟨rfl, rfl⟩

/-- C7: witness instantiating `C7_thm` on a concrete failing run. -/
theorem C7_witness :
    (alignChannel cfgOneFeature imgR imgG [KeyPoint.mk (0, 0)] (some [0])
      [KeyPoint.mk (0, 0)] (some [0]) 1 =
      Except.error (AlignmentError.mk (insufficientMsg 1))) ∧
    AlignmentError.mk (insufficientMsg 1) =
      AlignmentError.mk (AlignmentError.mk (insufficientMsg 1)).msg :=
  ⟨rfl,
    (C7_thm cfgOneFeature imgR imgG [KeyPoint.mk (0, 0)] (some [0])
      [KeyPoint.mk (0, 0)] (some [0]) 1 (AlignmentError.mk (insufficientMsg 1)) rfl).1⟩

/-- C8 (confirmed): a pair `(q, t)` is kept by the cross-checked
brute-force Hamming matcher exactly when `t` is the best (nearest, ties to
the lowest index) train match for query descriptor `q` and `q` is the best
query match for train descriptor `t`; no distance threshold is involved. -/
theorem C8_thm (query train : List Desc) (q t : Nat) :
    (q, t) ∈ bfMatchCrossCheck query train ↔
      isBestMatch (query.getD q 0) train t ∧ isBestMatch (train.getD t 0) query q := by
  unfold bfMatchCrossCheck
  rw [List.mem_filterMap]
  constructor
  · rintro ⟨a, ha, hfa⟩
    rw [List.mem_range] at ha
    cases hb : bestIdx (query.getD a 0) train with
    | none =>
      simp only [hb] at hfa
      exact Option.noConfusion hfa
    | some tb =>
      simp only [hb] at hfa
      by_cases hcross : bestIdx (train.getD tb 0) query = some a
      · rw [if_pos hcross] at hfa
        have hee : a = q ∧ tb = t := by simpa using hfa
        obtain ⟨rfl, rfl⟩ := hee
        exact ⟨(bestIdx_eq_some _ _ _).mp hb, (bestIdx_eq_some _ _ _).mp hcross⟩
      · rw [if_neg hcross] at hfa
        exact absurd hfa (by simp)
  · rintro ⟨hbt, hbq⟩
    have h1 : bestIdx (query.getD q 0) train = some t := (bestIdx_eq_some _ _ _).mpr hbt
    have h2 : bestIdx (train.getD t 0) query = some q := (bestIdx_eq_some _ _ _).mpr hbq
    refine ⟨q, List.mem_range.mpr hbq.1, ?_⟩
    simp only [h1]
    rw [if_pos h2]

/-- C9 (confirmed): `align_images` is deterministic — the result is a
function of the input images and the (fixed, pure) detector, estimator and
resampler alone, so equal inputs yield equal outputs or equal errors. -/
theorem C9_thm (cfg cfg' : Cfg) (i0 i1 i2 j0 j1 j2 : Image)
    (hcfg : cfg = cfg') (h0 : i0 = j0) (h1 : i1 = j1) (h2 : i2 = j2) :
    alignImages cfg i0 i1 i2 = alignImages cfg' j0 j1 j2 := by
  subst hcfg h0 h1 h2
  rfl

/-- C9: witness instantiating `C9_thm` on two identical concrete runs. -/
theorem C9_witness :
    alignImages cfgSkipAll imgR imgG imgB = alignImages cfgSkipAll imgR imgG imgB :=
  C9_thm cfgSkipAll cfgSkipAll imgR imgG imgB imgR imgG imgB rfl rfl rfl rfl

/-- C10 (confirmed): in the store model, `align_images` never mutates the
arrays holding its three inputs — every pre-existing store cell is unchanged
whether the call returns or fails — and each id in a returned triple is a
freshly allocated array (a `copy()` or a `warpAffine` output), distinct from
every input id. -/
theorem C10_thm (cfg : Cfg) (r0 r1 r2 : ArrayId) (s : Store)
    (res : Except AlignmentError (ArrayId × ArrayId × ArrayId)) (s' : Store)
    (h : alignImagesRef cfg r0 r1 r2 s = (res, s'))
    (h0 : r0 < s.length) (h1 : r1 < s.length) (h2 : r2 < s.length) :
    (∀ j, j < s.length → s'.getD j default = s.getD j default) ∧
    ∀ o0 o1 o2, res = Except.ok (o0, o1, o2) →
      o0 ≠ r0 ∧ o0 ≠ r1 ∧ o0 ≠ r2 ∧ o1 ≠ r0 ∧ o1 ≠ r1 ∧ o1 ≠ r2 ∧
      o2 ≠ r0 ∧ o2 ≠ r1 ∧ o2 ≠ r2 := by
  obtain ⟨hext, hfresh⟩ := alignImagesRef_run _ _ _ _ _ _ _ h
  refine ⟨fun j hj => extStore_getD _ _ _ hext hj, ?_⟩
  intro o0 o1 o2 hok
  obtain ⟨g0, g1, g2⟩ := hfresh o0 o1 o2 hok
  exact ⟨Nat.ne_of_gt (lt_of_lt_of_le h0 g0), Nat.ne_of_gt (lt_of_lt_of_le h1 g0),
    Nat.ne_of_gt (lt_of_lt_of_le h2 g0), Nat.ne_of_gt (lt_of_lt_of_le h0 g1),
    Nat.ne_of_gt (lt_of_lt_of_le h1 g1), Nat.ne_of_gt (lt_of_lt_of_le h2 g1),
    Nat.ne_of_gt (lt_of_lt_of_le h0 g2), Nat.ne_of_gt (lt_of_lt_of_le h1 g2),
    Nat.ne_of_gt (lt_of_lt_of_le h2 g2)⟩

/-- C10: witness instantiating `C10_thm` on a concrete three-image store. -/
theorem C10_witness :
    (alignImagesRef cfgSkipAll 0 1 2 [imgR, imgG, imgB] =
      (Except.ok (3, 4, 5), [imgR, imgG, imgB, imgR, imgG, imgB])) ∧
    ((3 : ArrayId) ≠ 0 ∧ (3 : ArrayId) ≠ 1 ∧ (3 : ArrayId) ≠ 2 ∧
     (4 : ArrayId) ≠ 0 ∧ (4 : ArrayId) ≠ 1 ∧ (4 : ArrayId) ≠ 2 ∧
     (5 : ArrayId) ≠ 0 ∧ (5 : ArrayId) ≠ 1 ∧ (5 : ArrayId) ≠ 2) :=
  ⟨rfl,
    (C10_thm cfgSkipAll 0 1 2 [imgR, imgG, imgB] (Except.ok (3, 4, 5))
      [imgR, imgG, imgB, imgR, imgG, imgB] rfl (by decide) (by decide)
      (by decide)).2 3 4 5 rfl⟩
